import Mathlib

/-!
Verification of the idempotent bulk-payment-operation pattern of this
repository (tickets 11 and 12).  The Lean definitions below are shallow
embeddings of the Python functions in
`src/ticket-11-idempotency-keys/solution.py` and
`src/ticket-12-bulk-refunds/solution.py`: pure computations are translated
directly, remote (Stripe SDK) calls are modelled by explicit per-attempt
outcome data supplied as input plus an explicit trace of the remote calls a
function performs, machine integers are `Int`/`Nat`, and the Python floats
that drive the backoff delay are modelled as rationals.  Print formatting
and wall-clock timestamp fields are out of scope (the spec's report sink).
-/

namespace StripePortfolio

/-!
## SHA-256 (FIPS 180-4)

`generate_composite_key` calls `hashlib.sha256(raw.encode()).hexdigest()`.
The digest is embedded here in full so that the key-derivation function is
executable; its 32-bit words are `Nat` values reduced mod 2^32.
-/

namespace SHA256

def w32 (x : Nat) : Nat := x % 4294967296

def w8 (x : Nat) : Nat := x % 256

def rotr (n x : Nat) : Nat := w32 ((x >>> n) ||| (x <<< (32 - n)))

def bigS0 (x : Nat) : Nat := rotr 2 x ^^^ rotr 13 x ^^^ rotr 22 x

def bigS1 (x : Nat) : Nat := rotr 6 x ^^^ rotr 11 x ^^^ rotr 25 x

def smallS0 (x : Nat) : Nat := rotr 7 x ^^^ rotr 18 x ^^^ (x >>> 3)

def smallS1 (x : Nat) : Nat := rotr 17 x ^^^ rotr 19 x ^^^ (x >>> 10)

def ch (e f g : Nat) : Nat := (e &&& f) ^^^ ((e ^^^ 4294967295) &&& g)

def maj (a b c : Nat) : Nat := (a &&& b) ^^^ (a &&& c) ^^^ (b &&& c)

def K : List Nat :=
  [1116352408, 1899447441, 3049323471, 3921009573,
   961987163, 1508970993, 2453635748, 2870763221,
   3624381080, 310598401, 607225278, 1426881987,
   1925078388, 2162078206, 2614888103, 3248222580,
   3835390401, 4022224774, 264347078, 604807628,
   770255983, 1249150122, 1555081692, 1996064986,
   2554220882, 2821834349, 2952996808, 3210313671,
   3336571891, 3584528711, 113926993, 338241895,
   666307205, 773529912, 1294757372, 1396182291,
   1695183700, 1986661051, 2177026350, 2456956037,
   2730485921, 2820302411, 3259730800, 3345764771,
   3516065817, 3600352804, 4094571909, 275423344,
   430227734, 506948616, 659060556, 883997877,
   958139571, 1322822218, 1537002063, 1747873779,
   1955562222, 2024104815, 2227730452, 2361852424,
   2428436474, 2756734187, 3204031479, 3329325298]

structure Hash where
  a : Nat
  b : Nat
  c : Nat
  d : Nat
  e : Nat
  f : Nat
  g : Nat
  h : Nat

def initHash : Hash :=
  ⟨1779033703, 3144134277, 1013904242, 2773480762,
   1359893119, 2600822924, 528734635, 1541459225⟩

def round (st : Hash) (kw : Nat) : Hash :=
  let t1 := w32 (st.h + bigS1 st.e + ch st.e st.f st.g + kw)
  let t2 := w32 (bigS0 st.a + maj st.a st.b st.c)
  ⟨w32 (t1 + t2), st.a, st.b, st.c, w32 (st.d + t1), st.e, st.f, st.g⟩

/-- One message-schedule extension step; the working list holds the words
most-recent first. -/
def extendStep (ws : List Nat) : List Nat :=
  w32 (smallS1 (ws.getD 1 0) + ws.getD 6 0 + smallS0 (ws.getD 14 0) + ws.getD 15 0) :: ws

def schedule (block : List Nat) : List Nat :=
  ((extendStep)^[48] block.reverse).reverse

def compress (st : Hash) (block : List Nat) : Hash :=
  let fin := (List.zipWith (fun k w => w32 (k + w)) K (schedule block)).foldl round st
  ⟨w32 (st.a + fin.a), w32 (st.b + fin.b), w32 (st.c + fin.c), w32 (st.d + fin.d),
   w32 (st.e + fin.e), w32 (st.f + fin.f), w32 (st.g + fin.g), w32 (st.h + fin.h)⟩

def pad (msg : List Nat) : List Nat :=
  let len := msg.length
  let zeros := (119 - len % 64) % 64
  let bits := 8 * len
  msg ++ 128 :: List.replicate zeros 0 ++
    [w8 (bits >>> 56), w8 (bits >>> 48), w8 (bits >>> 40), w8 (bits >>> 32),
     w8 (bits >>> 24), w8 (bits >>> 16), w8 (bits >>> 8), w8 bits]

def bytesToWords : List Nat → List Nat
  | b0 :: b1 :: b2 :: b3 :: rest =>
      (((b0 * 256 + b1) * 256 + b2) * 256 + b3) :: bytesToWords rest
  | _ => []

def toBlocks (l : List Nat) : List (List Nat) :=
  if h : l = [] then [] else l.take 64 :: toBlocks (l.drop 64)
  termination_by l.length
  decreasing_by
    have hl : 0 < l.length := List.length_pos.mpr h
    simp only [List.length_drop]
    omega

def wordBytes (w : Nat) : List Nat := [w8 (w >>> 24), w8 (w >>> 16), w8 (w >>> 8), w8 w]

def digestBytes (msg : List Nat) : List Nat :=
  let st := (toBlocks (pad msg)).foldl (fun s b => compress s (bytesToWords b)) initHash
  wordBytes st.a ++ wordBytes st.b ++ wordBytes st.c ++ wordBytes st.d ++
  wordBytes st.e ++ wordBytes st.f ++ wordBytes st.g ++ wordBytes st.h

def hexChar (n : Nat) : Char :=
  if n < 10 then Char.ofNat (48 + n) else Char.ofNat (87 + n)

def toHex (bytes : List Nat) : String :=
  String.mk (bytes.foldr (fun b acc => hexChar (b / 16) :: hexChar (b % 16) :: acc) [])

/-- Bytes of a string in UTF-8, as Python's `str.encode()` produces them. -/
def strBytes (s : String) : List Nat := s.toUTF8.data.toList.map (fun b => b.toNat)

end SHA256

/-!
## Ticket 11, Part 1: composite idempotency keys (`solution.py` lines 37-43)
-/

/-- Embeds `generate_composite_key(merchant_id, order_id, action)`:
`sha256(f"merchant_id:order_id:action".encode()).hexdigest()[:32]`. -/
def generate_composite_key (merchant_id order_id action : String) : String :=
  let raw := merchant_id ++ ":" ++ order_id ++ ":" ++ action
  (SHA256.toHex (SHA256.digestBytes (SHA256.strBytes raw))).take 32

/-- A logical payment operation as assembled at the call sites of ticket 11
(e.g. `demo_safe_payment`, lines 130-149): an identity triple
(merchant/agency id, order/booking id, action) plus the call parameters
that accompany it into `create_payment_safely`. -/
structure BookingOperation where
  merchant_id : String
  order_id : String
  action : String
  amount : Int
  currency : String
  description : String

/-- Key derivation as every call site of ticket 11 performs it: only the
identity triple is passed to `generate_composite_key` (lines 135-136,
241-242, 288-289, 366-367); amount, currency and description are not. -/
def operationKey (op : BookingOperation) : String :=
  generate_composite_key op.merchant_id op.order_id op.action

/-!
## Ticket 11, Part 2: `create_payment_safely` (`solution.py` lines 81-121)
-/

/-- The exception classes of the `stripe.error` module that a remote call
can raise.  `IdempotencyError` and `APIConnectionError` are subclasses of
`StripeError`, which the source's `except` clauses rely on. -/
inductive StripeErrorClass where
  | APIConnectionError
  | APIError
  | AuthenticationError
  | CardError
  | IdempotencyError
  | InvalidRequestError
  | PermissionError
  | RateLimitError
  | SignatureVerificationError
  | StripeError
deriving DecidableEq

/-- Python's `type(e).__name__` for each `stripe.error` class. -/
def typeName : StripeErrorClass → String
  | .APIConnectionError => "APIConnectionError"
  | .APIError => "APIError"
  | .AuthenticationError => "AuthenticationError"
  | .CardError => "CardError"
  | .IdempotencyError => "IdempotencyError"
  | .InvalidRequestError => "InvalidRequestError"
  | .PermissionError => "PermissionError"
  | .RateLimitError => "RateLimitError"
  | .SignatureVerificationError => "SignatureVerificationError"
  | .StripeError => "StripeError"

/-- The PaymentIntent object returned by a successful
`stripe.PaymentIntent.create`. -/
structure PaymentIntentObj where
  id : String
  amount : Int
  status : String

/-- What the remote `stripe.PaymentIntent.create` call does on a given
invocation: return a record, or raise one of the `stripe.error` classes. -/
inductive CreateOutcome where
  | created (pi : PaymentIntentObj)
  | raised (cls : StripeErrorClass) (msg : String)

/-- The result dict of `create_payment_safely`; keys absent from a branch
of the source are `none`. -/
structure PaymentResult where
  success : Bool
  payment_intent_id : Option String
  amount : Option Int
  status : Option String
  error_type : Option String
  message : Option String
  idempotency_key : String

/-- Embeds `create_payment_safely` (lines 81-121).  The remote call's
behaviour is the `remote` argument; the `except stripe.error.IdempotencyError`
clause is matched before the general `except stripe.error.StripeError`
clause, exactly as in the source. -/
def create_payment_safely (remote : CreateOutcome) (amount : Int)
    (currency description idempotency_key : String) : PaymentResult :=
  match remote with
  | .created pi =>
      ⟨true, some pi.id, some pi.amount, some pi.status, none, none, idempotency_key⟩
  | .raised .IdempotencyError msg =>
      ⟨false, none, none, none, some "idempotency_collision", some msg, idempotency_key⟩
  | .raised cls msg =>
      ⟨false, none, none, none, some (typeName cls), some msg, idempotency_key⟩

/-!
## Ticket 11, Part 3: `retry_with_backoff` (`solution.py` lines 179-231)
-/

/-- The result dict returned by the wrapped `func` on a successful attempt
(the loop body reads `result.get("payment_intent_id")`). -/
structure FuncResult where
  payment_intent_id : Option String

/-- Behaviour of one invocation of the wrapped `func`: it returns, raises
`stripe.error.APIConnectionError`, or raises another `stripe.error.StripeError`
(matched by the source's second `except` clause). -/
inductive AttemptOutcome where
  | success (res : FuncResult)
  | connectionError (msg : String)
  | stripeError (msg : String)

/-- Per-attempt environment: the outcome of the call, its elapsed time in
ms, and the unit-interval sample `u` underlying `random.uniform(0, 0.5)`
(whose value is `u * 0.5`). -/
structure AttemptEnv where
  outcome : AttemptOutcome
  elapsed_ms : Nat
  u : ℚ

/-- The delay expression of line 204:
`base_delay * (2 ** (attempt - 1)) + random.uniform(0, 0.5)`. -/
def backoffDelay (base_delay : ℚ) (attempt : Nat) (u : ℚ) : ℚ :=
  base_delay * 2 ^ (attempt - 1) + u * (1 / 2)

/-- One entry of the `audit_log` list; keys absent from a branch of the
source are `none`.  `retry_delay_s` keeps the exact rational (the source
rounds it to 2 decimals for display). -/
structure AuditEntry where
  attempt : Nat
  status : String
  elapsed_ms : Nat
  payment_intent_id : Option String
  retry_delay_s : Option ℚ
  error : Option String

/-- Output of `retry_with_backoff`: the returned result (or `None`), the
audit log, and the sequence of `time.sleep` durations actually performed. -/
structure RetryOutput where
  result : Option FuncResult
  log : List AuditEntry
  sleeps : List ℚ

/-- The `for attempt in range(1, max_retries + 1)` loop of lines 186-231;
`envs` supplies the behaviour of each successive call of `func`.  The
`attempt > max_retries` guard is the loop bound (reachable only when
`max_retries = 0`, where the source falls through returning bare `None`). -/
def retryLoop (base_delay : ℚ) (max_retries : Nat) :
    Nat → List AttemptEnv → RetryOutput
  | _, [] => ⟨none, [], []⟩
  | attempt, e :: rest =>
    if attempt > max_retries then ⟨none, [], []⟩
    else
      match e.outcome with
      | .success res =>
          ⟨some res,
           [⟨attempt, "success", e.elapsed_ms, res.payment_intent_id, none, none⟩], []⟩
      | .connectionError msg =>
          let delay := backoffDelay base_delay attempt e.u
          let entry : AuditEntry :=
            ⟨attempt, "connection_error", e.elapsed_ms, none, some delay, some msg⟩
          if attempt < max_retries then
            let r := retryLoop base_delay max_retries (attempt + 1) rest
            ⟨r.result, entry :: r.log, delay :: r.sleeps⟩
          else
            ⟨none, [entry], []⟩
      | .stripeError msg =>
          ⟨none, [⟨attempt, "stripe_error", e.elapsed_ms, none, none, some msg⟩], []⟩

/-- Embeds `retry_with_backoff(func, max_retries, base_delay)` (source
defaults: `max_retries=3`, `base_delay=1.0`); attempts are numbered from 1. -/
def retry_with_backoff (base_delay : ℚ) (max_retries : Nat)
    (envs : List AttemptEnv) : RetryOutput :=
  retryLoop base_delay max_retries 1 envs

/-!
## Ticket 12: bulk refunds (`src/ticket-12-bulk-refunds/solution.py`)

Amounts are integer minor units (cents), as in the source.  The remote
calls an embedded function performs are returned as an explicit
`RemoteCall` trace; a phase that never contacts the SDK has trace `[]`.
Wall-clock fields (`created`, `processed_at`, `timestamp`) and all print
formatting are outside the embedding (the spec's report sink).
-/

/-- A single-quote character, used inside skip-reason strings. -/
def sq : String := String.mk [Char.ofNat 39]

/-- The `latest_charge` object of a retrieved PaymentIntent. -/
structure ChargeObj where
  id : String
  amount_refunded : Int
deriving DecidableEq

/-- A retrieved PaymentIntent as read by `discover_eligible_payments`
(lines 110-142): status, amount, expanded latest charge, and the metadata
fields the loop reads with `.get(..., "N/A")`. -/
structure PIRecord where
  id : String
  status : String
  amount : Int
  latest_charge : Option ChargeObj
  order_id : Option String
  customer_email : Option String
  description : String
deriving DecidableEq

/-- One entry of the `eligible` list built at lines 132-142. -/
structure EligibleItem where
  pi_id : String
  charge_id : Option String
  amount : Int
  already_refunded : Int
  refundable : Int
  order_id : String
  customer_email : String
  description : String
deriving DecidableEq

/-- One entry of the `skipped` list (lines 115-118 and 126-129). -/
structure SkippedItem where
  pi_id : String
  reason : String
deriving DecidableEq

/-- The skip reason of lines 115-118:
`f"Status is '{pi.status}', not 'succeeded'"`. -/
def statusReason (status : String) : String :=
  "Status is " ++ sq ++ status ++ sq ++ ", not " ++ sq ++ "succeeded" ++ sq

/-- Line 122: `already_refunded = charge.amount_refunded if charge else 0`. -/
def chargeRefunded (pi : PIRecord) : Int :=
  match pi.latest_charge with
  | some c => c.amount_refunded
  | none => 0

/-- Embeds the per-candidate loop of `discover_eligible_payments`
(lines 110-142), preserving input order: non-succeeded candidates are
skipped with a reason naming the status; then
`already_refunded = charge.amount_refunded if charge else 0`,
`refundable = pi.amount - already_refunded`, and candidates with
`refundable <= 0` are skipped as "Already fully refunded"; the rest become
eligible entries. -/
def discover_eligible_payments :
    List PIRecord → List EligibleItem × List SkippedItem
  | [] => ([], [])
  | pi :: rest =>
    let r := discover_eligible_payments rest
    if pi.status ≠ "succeeded" then
      (r.1, ⟨pi.id, statusReason pi.status⟩ :: r.2)
    else
      let already_refunded := chargeRefunded pi
      let refundable := pi.amount - already_refunded
      if refundable ≤ 0 then
        (r.1, ⟨pi.id, "Already fully refunded"⟩ :: r.2)
      else
        (⟨pi.id, pi.latest_charge.map (fun c => c.id), pi.amount, already_refunded,
          refundable, pi.order_id.getD "N/A", pi.customer_email.getD "N/A",
          pi.description⟩ :: r.1, r.2)

/-- The Stripe SDK calls the ticket-12 phases can perform. -/
inductive RemoteCall where
  | retrievePaymentIntent (pi_id : String)
  | createRefund (payment_intent : String) (amount : Int)
deriving DecidableEq

/-- Embeds `dry_run(eligible)` (lines 166-198).  The body computes
`total_refund = sum(p["refundable"] for p in eligible)` and the
full/partial splits, prints the preview box, and returns `total_refund`;
it performs no SDK call and never writes to `eligible`.  The embedding
threads the plan through and returns the remote-call trace (empty here)
so that both facts are visible in the output type. -/
def dry_run (eligible : List EligibleItem) :
    Int × List EligibleItem × List RemoteCall :=
  let total_refund := (eligible.map (fun p => p.refundable)).sum
  let _full_refunds := eligible.filter (fun p => p.already_refunded == 0)
  let _partial_refunds := eligible.filter (fun p => p.already_refunded > 0)
  (total_refund, eligible, [])

/-- Behaviour of one `stripe.Refund.create` call inside
`execute_bulk_refunds`: success, or one of the two exception classes the
source catches separately (lines 257 and 268). -/
inductive RefundOutcome where
  | success (refund_id : String) (refund_status : String)
  | invalidRequest (msg : String)
  | stripeErr (msg : String)

/-- One entry of `results["succeeded"]` (lines 241-250). -/
structure RefundSuccess where
  order_id : String
  pi_id : String
  refund_id : String
  amount : Int
  type : String
  customer_email : String
  status : String

/-- One entry of `results["failed"]` (lines 260-266 and 271-277). -/
structure RefundFailure where
  order_id : String
  pi_id : String
  error : String
  customer_email : String

/-- The `results` dict of `execute_bulk_refunds`. -/
structure ExecResults where
  succeeded : List RefundSuccess
  failed : List RefundFailure

/-- Output of `execute_bulk_refunds`: the results dict, the trace of SDK
calls in order, and the 1-based loop indices `i` at which `time.sleep(1)`
ran. -/
structure ExecOutput where
  results : ExecResults
  calls : List RemoteCall
  pauses : List Nat

/-- The `for i, payment in enumerate(eligible, 1)` loop of lines 219-277.
Each iteration issues exactly one `stripe.Refund.create` for
`payment["refundable"]`; on success the entry is appended to `succeeded`
and, still inside the `try` block, `time.sleep(1)` runs when `i % 20 == 0`
(lines 252-255) — so a failing 20th submission skips the pause; on either
caught exception the entry is appended to `failed`. -/
def executeLoop : Nat → List (EligibleItem × RefundOutcome) → ExecOutput
  | _, [] => ⟨⟨[], []⟩, [], []⟩
  | i, (p, out) :: rest =>
    let r := executeLoop (i + 1) rest
    let call := RemoteCall.createRefund p.pi_id p.refundable
    match out with
    | .success rid rstatus =>
        let refund_type := if p.already_refunded == 0 then "FULL" else "PARTIAL"
        let entry : RefundSuccess :=
          ⟨p.order_id, p.pi_id, rid, p.refundable, refund_type, p.customer_email, rstatus⟩
        let pause := if i % 20 == 0 then [i] else []
        ⟨⟨entry :: r.results.succeeded, r.results.failed⟩, call :: r.calls,
         pause ++ r.pauses⟩
    | .invalidRequest msg =>
        ⟨⟨r.results.succeeded, ⟨p.order_id, p.pi_id, msg, p.customer_email⟩ :: r.results.failed⟩,
         call :: r.calls, r.pauses⟩
    | .stripeErr msg =>
        ⟨⟨r.results.succeeded, ⟨p.order_id, p.pi_id, msg, p.customer_email⟩ :: r.results.failed⟩,
         call :: r.calls, r.pauses⟩

/-- Embeds `execute_bulk_refunds(eligible)` (lines 205-279); `items` pairs
each eligible target with the behaviour of its `stripe.Refund.create`
call. -/
def execute_bulk_refunds (items : List (EligibleItem × RefundOutcome)) : ExecOutput :=
  executeLoop 1 items

/-- Embeds the verification arithmetic of `generate_compliance_report`
(lines 286-312): `total_refunded = sum(r["amount"] for r in succeeded)`
and the line-310 check `total_refunded == total_preview` (printed as
MATCH / MISMATCH).  Returns `(total_refunded, match)`.  The `eligible` and
`skipped` arguments are carried as in the source signature (they feed only
printed counts and detail listings). -/
def generate_compliance_report (results : ExecResults)
    (eligible : List EligibleItem) (skipped : List SkippedItem)
    (total_preview : Int) : Int × Bool :=
  let total_refunded := (results.succeeded.map (fun r => r.amount)).sum
  (total_refunded, total_refunded == total_preview)

/-!
## Proof apparatus: concrete run shapes used in the claims below
-/

/-- A transient attempt, given by its elapsed time, jitter sample and
error message; `mkConnEnv` packages it as an `AttemptEnv` whose call
raises `APIConnectionError`. -/
structure ConnSpec where
  elapsed_ms : Nat
  u : ℚ
  msg : String

def mkConnEnv (t : ConnSpec) : AttemptEnv :=
  ⟨.connectionError t.msg, t.elapsed_ms, t.u⟩

/-- The audit log a run of consecutive transient failures produces,
starting at a given attempt number (each entry mirrors lines 206-212). -/
def connLog (base : ℚ) : Nat → List ConnSpec → List AuditEntry
  | _, [] => []
  | attempt, t :: ts =>
    ⟨attempt, "connection_error", t.elapsed_ms, none,
     some (backoffDelay base attempt t.u), some t.msg⟩ :: connLog base (attempt + 1) ts

/-- Whether a `stripe.Refund.create` call returned (rather than raised). -/
def isSuccess : RefundOutcome → Bool
  | .success _ _ => true
  | _ => false

/-- Concrete two-target plan used to test reconciliation: 800 + 200
cents planned. -/
def planA : EligibleItem :=
  ⟨"pi_a", some "ch_a", 800, 0, 800, "ORD-A", "a@example.com", "item A"⟩

def planB : EligibleItem :=
  ⟨"pi_b", some "ch_b", 200, 0, 200, "ORD-B", "b@example.com", "item B"⟩

/-- A run over that plan in which the 800-cent item succeeds and the
200-cent item fails with `InvalidRequestError`. -/
def reconRun : ExecOutput :=
  execute_bulk_refunds
    [(planA, .success "re_a" "succeeded"), (planB, .invalidRequest "cannot refund")]

/-- A recall target and a 20-item batch whose 20th submission fails. -/
def recallItem : EligibleItem :=
  ⟨"pi_r", some "ch_r", 34900, 0, 34900, "NB-R", "r@example.com", "recall"⟩

def chunk20 : List (EligibleItem × RefundOutcome) :=
  List.replicate 19 (recallItem, RefundOutcome.success "re_ok" "succeeded")
    ++ [(recallItem, RefundOutcome.invalidRequest "already refunded")]

/-- Concrete candidates for discovery: one refundable payment and one
already fully refunded. -/
def discoverDemo : List PIRecord :=
  [⟨"pi_ok", "succeeded", 34900, some ⟨"ch1", 0⟩, some "NB-1", some "c1@example.com", "d1"⟩,
   ⟨"pi_full", "succeeded", 34900, some ⟨"ch2", 34900⟩, some "NB-2", some "c2@example.com", "d2"⟩]

/-!
## Claims about key derivation (C2, C3)
-/

/-- Claim C3: key derivation is a pure deterministic function of the
identity triple only.  Two operations agreeing on (merchant_id, order_id,
action) derive byte-for-byte the same key, whatever their amount, currency
or description; determinism across repeated calls is the fact that
`operationKey` is a function. -/
theorem composite_key_pure_of_identity (op1 op2 : BookingOperation)
    (hm : op1.merchant_id = op2.merchant_id)
    (ho : op1.order_id = op2.order_id)
    (ha : op1.action = op2.action) :
    operationKey op1 = operationKey op2 := by
  unfold operationKey
  rw [hm, ho, ha]

/-- Witness for C3: the same booking with different amount, currency and
description derives the same key. -/
theorem composite_key_pure_witness :
    operationKey ⟨"agency_042", "booking_7891", "create_payment", 240000, "eur", "trip A"⟩
      = operationKey ⟨"agency_042", "booking_7891", "create_payment", 185000, "usd", "trip B"⟩ :=
  composite_key_pure_of_identity _ _ rfl rfl rfl

/-- Counterexample to claim C2: the key map is not injective on
identities.  The raw string joins the three fields with ":" without
escaping, so the distinct identities ("a", "b:c", "d") and
("a:b", "c", "d") produce the same raw string "a:b:c:d" and hence the same
key, refuting key(op1) = key(op2) → identity(op1) = identity(op2). -/
theorem composite_key_not_injective :
    generate_composite_key "a" "b:c" "d" = generate_composite_key "a:b" "c" "d"
      ∧ (("a", "b:c", "d") : String × String × String) ≠ ("a:b", "c", "d") := by
  constructor
  · have h : ("a" ++ ":" ++ "b:c" ++ ":" ++ "d" : String)
        = "a:b" ++ ":" ++ "c" ++ ":" ++ "d" := by decide
    show (SHA256.toHex (SHA256.digestBytes
          (SHA256.strBytes ("a" ++ ":" ++ "b:c" ++ ":" ++ "d")))).take 32
        = (SHA256.toHex (SHA256.digestBytes
          (SHA256.strBytes ("a:b" ++ ":" ++ "c" ++ ":" ++ "d")))).take 32
    rw [h]
  · decide

/-- Claim C2 (amended): equal identities always derive equal keys; the
converse direction of the claimed equivalence is refuted by
`composite_key_not_injective`. -/
theorem composite_key_identity_determines_key
    (m1 o1 a1 m2 o2 a2 : String)
    (h : ((m1, o1, a1) : String × String × String) = (m2, o2, a2)) :
    generate_composite_key m1 o1 a1 = generate_composite_key m2 o2 a2 := by
  simp only [Prod.mk.injEq] at h
  obtain ⟨hm, ho, ha⟩ := h
  rw [hm, ho, ha]

/-- Witness for the amended C2 at a concrete identity. -/
theorem composite_key_identity_witness :
    generate_composite_key "agency_042" "booking_7891" "create_payment"
      = generate_composite_key "agency_042" "booking_7891" "create_payment" :=
  composite_key_identity_determines_key _ _ _ _ _ _ rfl

/-!
## Claims about the idempotent submitter (C10, C5)
-/

/-- Claim C10: `create_payment_safely` is total over remote errors — it is
a function of the remote outcome, never re-raising a Stripe exception; the
result always carries the key argument; success is true exactly when the
remote create returned a record (and then `payment_intent_id` is that
record's id); on failure `error_type` is "idempotency_collision" exactly
when the rejection was `stripe.error.IdempotencyError`. -/
theorem create_payment_safely_total (remote : CreateOutcome) (amount : Int)
    (currency description key : String) :
    (create_payment_safely remote amount currency description key).idempotency_key = key
    ∧ ((create_payment_safely remote amount currency description key).success = true
        ↔ ∃ pi, remote = .created pi)
    ∧ (∀ pi, remote = .created pi →
        (create_payment_safely remote amount currency description key).payment_intent_id
          = some pi.id)
    ∧ ((create_payment_safely remote amount currency description key).error_type
          = some "idempotency_collision"
        ↔ ∃ msg, remote = .raised .IdempotencyError msg) := by
  rcases remote with pi | ⟨cls, msg⟩
  · simp [create_payment_safely]
  · cases cls <;> simp [create_payment_safely, typeName]

/-- Witness for C10 at a concrete collision outcome. -/
theorem create_payment_safely_total_witness :
    (create_payment_safely (.raised .IdempotencyError "key reused") 10000
        "eur" "Collision test" "k1").error_type = some "idempotency_collision" :=
  (create_payment_safely_total (.raised .IdempotencyError "key reused") 10000
    "eur" "Collision test" "k1").2.2.2.mpr ⟨"key reused", rfl⟩

/-- Claim C5: an attempt that raises a non-connection `StripeError`
(permanent business rejection, or an idempotency collision —
`IdempotencyError` is a `StripeError` subclass) ends the retry loop at
once: the loop returns `None` with exactly that one attempt logged and no
sleep, regardless of remaining budget; and `create_payment_safely`
classifies a collision with the distinct tag "idempotency_collision",
which no other `stripe.error` class maps to. -/
theorem permanent_error_no_retry :
    (∀ (base : ℚ) (maxR attempt : Nat) (e : AttemptEnv) (rest : List AttemptEnv)
        (msg : String), e.outcome = .stripeError msg → attempt ≤ maxR →
      retryLoop base maxR attempt (e :: rest)
        = ⟨none, [⟨attempt, "stripe_error", e.elapsed_ms, none, none, some msg⟩], []⟩)
    ∧ (∀ (amount : Int) (currency description key msg : String),
      (create_payment_safely (.raised .IdempotencyError msg)
        amount currency description key).error_type = some "idempotency_collision")
    ∧ (∀ cls, cls ≠ StripeErrorClass.IdempotencyError →
        typeName cls ≠ "idempotency_collision") := by
  refine ⟨?_, ?_, ?_⟩
  · intro base maxR attempt e rest msg hout hle
    have hgt : ¬ attempt > maxR := by omega
    simp [retryLoop, hgt, hout]
  · intro amount currency description key msg
    rfl
  · intro cls hcls
    cases cls <;> simp [typeName]

/-- Witness for C5: a declined-card outcome on attempt 1 with budget 3
makes exactly one call, no sleep, and returns `None`. -/
theorem permanent_error_no_retry_witness :
    retryLoop 1 3 1 [⟨.stripeError "card_declined", 7, 0⟩]
      = ⟨none, [⟨1, "stripe_error", 7, none, none, some "card_declined"⟩], []⟩ :=
  permanent_error_no_retry.1 1 3 1 ⟨.stripeError "card_declined", 7, 0⟩ []
    "card_declined" rfl (by omega)

/-!
## Claims about the backoff retrier (C4, C6)
-/

/-- Counterexample to claim C4: the jitter of line 204 is
`random.uniform(0, 0.5)` — a fixed half-second interval — not uniform on
`[0, base_delay/2]`.  With `base_delay = 1/2` and the jitter sample at its
maximum (`u = 1`), the retrier sleeps `1/2 * 2^0 + 1/2 = 1` second before
attempt 2, but no jitter `j ∈ [0, base_delay/2] = [0, 1/4]` satisfies
`1 = 1/2 * 2^0 + j`. -/
theorem backoff_jitter_counterexample :
    (retry_with_backoff (1 / 2) 2
        [⟨.connectionError "net down", 5, 1⟩, ⟨.success ⟨some "pi_1"⟩, 5, 0⟩]).sleeps
      = [1]
    ∧ ¬ ∃ j : ℚ, 0 ≤ j ∧ j ≤ (1 / 2) / 2 ∧ (1 : ℚ) = (1 / 2) * 2 ^ (1 - 1) + j := by
  constructor
  · show [backoffDelay (1 / 2) 1 1] = [1]
    unfold backoffDelay
    norm_num
  · rintro ⟨j, h0, h1, h2⟩
    norm_num at h1 h2
    linarith

/-- Claim C4 (amended): when attempt `n` (with `n < max_retries`) fails
transiently, the retrier sleeps exactly
`base_delay * 2^(n-1) + u * (1/2)` before attempt `n+1`, where
`u * (1/2)` (the `random.uniform(0, 0.5)` sample, `u ∈ [0,1]`) lies in the
fixed interval `[0, 1/2]` independently of `base_delay`; a first attempt
that succeeds involves no sleep at all. -/
theorem backoff_delay_formula :
    (∀ (base : ℚ) (maxR attempt : Nat) (e : AttemptEnv) (rest : List AttemptEnv)
        (msg : String), e.outcome = .connectionError msg → attempt < maxR →
      (retryLoop base maxR attempt (e :: rest)).sleeps
        = (base * 2 ^ (attempt - 1) + e.u * (1 / 2))
            :: (retryLoop base maxR (attempt + 1) rest).sleeps)
    ∧ (∀ u : ℚ, 0 ≤ u → u ≤ 1 → 0 ≤ u * (1 / 2) ∧ u * (1 / 2) ≤ 1 / 2)
    ∧ (∀ (base : ℚ) (maxR : Nat) (e : AttemptEnv) (res : FuncResult)
        (rest : List AttemptEnv), e.outcome = .success res → 1 ≤ maxR →
      (retry_with_backoff base maxR (e :: rest)).sleeps = []
      ∧ (retry_with_backoff base maxR (e :: rest)).log.length = 1) := by
  refine ⟨?_, ?_, ?_⟩
  · intro base maxR attempt e rest msg hout hlt
    have hgt : ¬ attempt > maxR := by omega
    simp [retryLoop, hgt, hout, hlt, backoffDelay]
  · intro u h0 h1
    constructor <;> linarith
  · intro base maxR e res rest hout hmax
    have hgt : ¬ 1 > maxR := by omega
    constructor <;> simp [retry_with_backoff, retryLoop, hgt, hout]

/-- Witness for the amended C4: a transient failure at attempt 1 of 2 with
`base_delay = 1` and jitter sample 0 sleeps exactly 1 second. -/
theorem backoff_delay_formula_witness :
    (retryLoop 1 2 1 [⟨.connectionError "timeout", 3, 0⟩]).sleeps
      = ((1 : ℚ) * 2 ^ (1 - 1) + 0 * (1 / 2)) :: (retryLoop 1 2 2 []).sleeps :=
  backoff_delay_formula.1 1 2 1 ⟨.connectionError "timeout", 3, 0⟩ [] "timeout"
    rfl (by omega)

/-!
### Step lemmas for the retry loop
-/

lemma retryLoop_success_step (base : ℚ) (maxR attempt : Nat) (e : AttemptEnv)
    (rest : List AttemptEnv) (res : FuncResult)
    (hout : e.outcome = .success res) (hle : attempt ≤ maxR) :
    retryLoop base maxR attempt (e :: rest)
      = ⟨some res,
         [⟨attempt, "success", e.elapsed_ms, res.payment_intent_id, none, none⟩], []⟩ := by
  have hgt : ¬ attempt > maxR := by omega
  simp [retryLoop, hgt, hout]

lemma retryLoop_conn_step (base : ℚ) (maxR attempt : Nat) (e : AttemptEnv)
    (rest : List AttemptEnv) (msg : String)
    (hout : e.outcome = .connectionError msg) (hlt : attempt < maxR) :
    retryLoop base maxR attempt (e :: rest)
      = ⟨(retryLoop base maxR (attempt + 1) rest).result,
         ⟨attempt, "connection_error", e.elapsed_ms, none,
          some (backoffDelay base attempt e.u), some msg⟩
           :: (retryLoop base maxR (attempt + 1) rest).log,
         backoffDelay base attempt e.u :: (retryLoop base maxR (attempt + 1) rest).sleeps⟩ := by
  have hgt : ¬ attempt > maxR := by omega
  simp [retryLoop, hgt, hout, hlt]

lemma retryLoop_conn_giveup (base : ℚ) (maxR : Nat) (e : AttemptEnv)
    (rest : List AttemptEnv) (msg : String)
    (hout : e.outcome = .connectionError msg) :
    retryLoop base maxR maxR (e :: rest)
      = ⟨none, [⟨maxR, "connection_error", e.elapsed_ms, none,
                 some (backoffDelay base maxR e.u), some msg⟩], []⟩ := by
  simp [retryLoop, hout]

lemma retryLoop_stripe_step (base : ℚ) (maxR attempt : Nat) (e : AttemptEnv)
    (rest : List AttemptEnv) (msg : String)
    (hout : e.outcome = .stripeError msg) (hle : attempt ≤ maxR) :
    retryLoop base maxR attempt (e :: rest)
      = ⟨none, [⟨attempt, "stripe_error", e.elapsed_ms, none, none, some msg⟩], []⟩ := by
  have hgt : ¬ attempt > maxR := by omega
  simp [retryLoop, hgt, hout]

lemma retryLoop_log_length_le (base : ℚ) (maxR : Nat) :
    ∀ (envs : List AttemptEnv) (attempt : Nat),
      (retryLoop base maxR attempt envs).log.length ≤ maxR + 1 - attempt := by
  intro envs
  induction envs with
  | nil => intro attempt; simp [retryLoop]
  | cons e rest ih =>
    intro attempt
    by_cases hgt : attempt > maxR
    · simp [retryLoop, hgt]
    · have hle : attempt ≤ maxR := by omega
      rcases hout : e.outcome with res | msg | msg
      · rw [retryLoop_success_step base maxR attempt e rest res hout hle]
        simp only [List.length_singleton]
        omega
      · by_cases hlt : attempt < maxR
        · rw [retryLoop_conn_step base maxR attempt e rest msg hout hlt]
          have h2 := ih (attempt + 1)
          simp only [List.length_cons]
          omega
        · have ha : attempt = maxR := by omega
          subst ha
          rw [retryLoop_conn_giveup base attempt e rest msg hout]
          simp only [List.length_singleton]
          omega
      · rw [retryLoop_stripe_step base maxR attempt e rest msg hout hle]
        simp only [List.length_singleton]
        omega

lemma retryLoop_log_get? (base : ℚ) (maxR : Nat) :
    ∀ (envs : List AttemptEnv) (attempt k : Nat) (en : AuditEntry),
      (retryLoop base maxR attempt envs).log.get? k = some en →
      en.attempt = attempt + k := by
  intro envs
  induction envs with
  | nil => intro attempt k en h; simp [retryLoop] at h
  | cons e rest ih =>
    intro attempt k en h
    by_cases hgt : attempt > maxR
    · simp [retryLoop, hgt] at h
    · have hle : attempt ≤ maxR := by omega
      rcases hout : e.outcome with res | msg | msg
      · rw [retryLoop_success_step base maxR attempt e rest res hout hle] at h
        rcases k with _ | k
        · simp at h
          subst h
          rfl
        · simp at h
      · by_cases hlt : attempt < maxR
        · rw [retryLoop_conn_step base maxR attempt e rest msg hout hlt] at h
          rcases k with _ | k
          · simp at h
            subst h
            rfl
          · simp only [List.get?_cons_succ] at h
            have h2 := ih (attempt + 1) k en h
            omega
        · have ha : attempt = maxR := by omega
          subst ha
          rw [retryLoop_conn_giveup base attempt e rest msg hout] at h
          rcases k with _ | k
          · simp at h
            subst h
            rfl
          · simp at h
      · rw [retryLoop_stripe_step base maxR attempt e rest msg hout hle] at h
        rcases k with _ | k
        · simp at h
          subst h
          rfl
        · simp at h

lemma connLog_length (base : ℚ) :
    ∀ (ts : List ConnSpec) (attempt : Nat),
      (connLog base attempt ts).length = ts.length := by
  intro ts
  induction ts with
  | nil => intro attempt; rfl
  | cons t ts ih => intro attempt; simp [connLog, ih]

lemma connLog_getLast (base : ℚ) :
    ∀ (ts : List ConnSpec) (attempt : Nat) (t : ConnSpec),
      ts.getLast? = some t →
      (connLog base attempt ts).getLast?
        = some ⟨attempt + ts.length - 1, "connection_error", t.elapsed_ms, none,
                some (backoffDelay base (attempt + ts.length - 1) t.u), some t.msg⟩ := by
  intro ts
  induction ts with
  | nil => intro attempt t h; simp at h
  | cons t0 ts ih =>
    intro attempt t h
    rcases ts with _ | ⟨t1, ts'⟩
    · simp at h
      subst h
      simp [connLog]
    · rw [List.getLast?_cons_cons] at h
      have h2 := ih (attempt + 1) t h
      show ((⟨attempt, "connection_error", t0.elapsed_ms, none,
              some (backoffDelay base attempt t0.u), some t0.msg⟩ : AuditEntry)
            :: connLog base (attempt + 1) (t1 :: ts')).getLast? = _
      rcases hcl : connLog base (attempt + 1) (t1 :: ts') with _ | ⟨x, xs⟩
      · have := connLog_length base (t1 :: ts') (attempt + 1)
        rw [hcl] at this
        simp at this
      · rw [List.getLast?_cons_cons]
        rw [← hcl, h2]
        have harith : attempt + 1 + (t1 :: ts').length - 1
            = attempt + (t0 :: t1 :: ts').length - 1 := by
          simp
          omega
        rw [harith]

lemma retryLoop_all_conn (base : ℚ) (maxR : Nat) :
    ∀ (ts : List ConnSpec) (rest : List AttemptEnv) (attempt : Nat),
      1 ≤ attempt → attempt + ts.length = maxR + 1 →
      (retryLoop base maxR attempt (ts.map mkConnEnv ++ rest)).result = none
      ∧ (retryLoop base maxR attempt (ts.map mkConnEnv ++ rest)).log
          = connLog base attempt ts := by
  intro ts
  induction ts with
  | nil =>
    intro rest attempt h1 h2
    have ha : attempt = maxR + 1 := by simpa using h2
    subst ha
    rcases rest with _ | ⟨e, rest⟩
    · exact ⟨rfl, rfl⟩
    · have hgt : maxR + 1 > maxR := by omega
      simp [retryLoop, hgt, connLog]
  | cons t ts ih =>
    intro rest attempt h1 h2
    have hout : (mkConnEnv t).outcome = .connectionError t.msg := rfl
    rcases ts with _ | ⟨t1, ts'⟩
    · have ha : attempt = maxR := by simp at h2; omega
      subst ha
      rw [show ([t].map mkConnEnv ++ rest) = mkConnEnv t :: rest from rfl]
      rw [retryLoop_conn_giveup base attempt (mkConnEnv t) rest t.msg hout]
      exact ⟨rfl, rfl⟩
    · have hlt : attempt < maxR := by simp at h2; omega
      obtain ⟨ihr, ihl⟩ := ih rest (attempt + 1) (by omega) (by simp at h2 ⊢; omega)
      rw [show ((t :: t1 :: ts').map mkConnEnv ++ rest)
            = mkConnEnv t :: ((t1 :: ts').map mkConnEnv ++ rest) from rfl]
      rw [retryLoop_conn_step base maxR attempt (mkConnEnv t)
            ((t1 :: ts').map mkConnEnv ++ rest) t.msg hout hlt]
      exact ⟨ihr, congrArg (List.cons _) ihl⟩

/-- Claim C6: the retry loop makes at most `max_retries` calls (the log
records exactly one entry per call, with its attempt number and elapsed
time, by lines 192-197, 206-212 and 224-229); attempts are numbered
consecutively from 1; and a run of `max_retries` consecutive transient
failures returns `None` with exactly `max_retries` logged attempts whose
last entry carries the last transient error — no further retry happens. -/
theorem retry_bounded_and_logged :
    (∀ (base : ℚ) (maxR : Nat) (envs : List AttemptEnv),
      (retry_with_backoff base maxR envs).log.length ≤ maxR)
    ∧ (∀ (base : ℚ) (maxR : Nat) (envs : List AttemptEnv) (k : Nat) (en : AuditEntry),
      (retry_with_backoff base maxR envs).log.get? k = some en → en.attempt = k + 1)
    ∧ (∀ (base : ℚ) (maxR : Nat) (ts : List ConnSpec) (rest : List AttemptEnv)
        (t : ConnSpec), 1 ≤ maxR → ts.length = maxR → ts.getLast? = some t →
      (retry_with_backoff base maxR (ts.map mkConnEnv ++ rest)).result = none
      ∧ (retry_with_backoff base maxR (ts.map mkConnEnv ++ rest)).log.length = maxR
      ∧ (retry_with_backoff base maxR (ts.map mkConnEnv ++ rest)).log.getLast?
          = some ⟨maxR, "connection_error", t.elapsed_ms, none,
                  some (backoffDelay base maxR t.u), some t.msg⟩) := by
  refine ⟨?_, ?_, ?_⟩
  · intro base maxR envs
    have h := retryLoop_log_length_le base maxR envs 1
    unfold retry_with_backoff
    omega
  · intro base maxR envs k en h
    have h2 := retryLoop_log_get? base maxR envs 1 k en h
    omega
  · intro base maxR ts rest t hmax hlen hlast
    obtain ⟨hr, hl⟩ := retryLoop_all_conn base maxR ts rest 1 (by omega) (by omega)
    refine ⟨hr, ?_, ?_⟩
    · unfold retry_with_backoff
      rw [hl, connLog_length]
      exact hlen
    · unfold retry_with_backoff
      rw [hl, connLog_getLast base ts 1 t hlast]
      have harith : 1 + ts.length - 1 = maxR := by omega
      rw [harith]

/-- Witness for C6: two consecutive transient failures with budget 2
return `None`, log exactly 2 attempts numbered 1 and 2, and the last entry
carries the second error. -/
theorem retry_bounded_and_logged_witness :
    (retry_with_backoff 1 2 ([⟨3, 0, "err one"⟩, ⟨4, 0, "err two"⟩].map mkConnEnv ++ [])).result
        = none
    ∧ (retry_with_backoff 1 2 ([⟨3, 0, "err one"⟩, ⟨4, 0, "err two"⟩].map mkConnEnv ++ [])).log.length
        = 2
    ∧ (retry_with_backoff 1 2 ([⟨3, 0, "err one"⟩, ⟨4, 0, "err two"⟩].map mkConnEnv ++ [])).log.getLast?
        = some ⟨2, "connection_error", 4, none, some (backoffDelay 1 2 0), some "err two"⟩ :=
  retry_bounded_and_logged.2.2 1 2 [⟨3, 0, "err one"⟩, ⟨4, 0, "err two"⟩] [] ⟨4, 0, "err two"⟩
    (by omega) rfl rfl

/-!
## Claim about discovery (C7)
-/

lemma discover_cons_notsucc (pi : PIRecord) (rest : List PIRecord)
    (hs : ¬ pi.status = "succeeded") :
    discover_eligible_payments (pi :: rest)
      = ((discover_eligible_payments rest).1,
         ⟨pi.id, statusReason pi.status⟩ :: (discover_eligible_payments rest).2) := by
  simp [discover_eligible_payments, hs]

lemma discover_cons_refunded (pi : PIRecord) (rest : List PIRecord)
    (hs : pi.status = "succeeded") (hr : pi.amount - chargeRefunded pi ≤ 0) :
    discover_eligible_payments (pi :: rest)
      = ((discover_eligible_payments rest).1,
         ⟨pi.id, "Already fully refunded"⟩ :: (discover_eligible_payments rest).2) := by
  simp [discover_eligible_payments, hs, hr]

lemma discover_cons_eligible (pi : PIRecord) (rest : List PIRecord)
    (hs : pi.status = "succeeded") (hr : ¬ pi.amount - chargeRefunded pi ≤ 0) :
    discover_eligible_payments (pi :: rest)
      = (⟨pi.id, pi.latest_charge.map (fun c => c.id), pi.amount, chargeRefunded pi,
          pi.amount - chargeRefunded pi, pi.order_id.getD "N/A",
          pi.customer_email.getD "N/A", pi.description⟩
           :: (discover_eligible_payments rest).1,
         (discover_eligible_payments rest).2) := by
  simp [discover_eligible_payments, hs, hr]

/-- Claim C7: every eligible target satisfies
`refundable = amount - already_refunded` with `refundable > 0` (so no
fully-settled target, `refundable = 0`, ever reaches the plan), and every
succeeded candidate whose remaining amount is non-positive lands in the
skip list with the reason "Already fully refunded". -/
theorem eligible_invariants :
    (∀ (pis : List PIRecord) (e : EligibleItem),
      e ∈ (discover_eligible_payments pis).1 →
      e.refundable = e.amount - e.already_refunded ∧ 0 < e.refundable)
    ∧ (∀ (pis : List PIRecord) (pi : PIRecord), pi ∈ pis →
      pi.status = "succeeded" → pi.amount - chargeRefunded pi ≤ 0 →
      (⟨pi.id, "Already fully refunded"⟩ : SkippedItem)
        ∈ (discover_eligible_payments pis).2) := by
  constructor
  · intro pis
    induction pis with
    | nil => intro e he; simp [discover_eligible_payments] at he
    | cons pi rest ih =>
      intro e he
      by_cases hs : pi.status = "succeeded"
      · by_cases hr : pi.amount - chargeRefunded pi ≤ 0
        · rw [discover_cons_refunded pi rest hs hr] at he
          exact ih e he
        · rw [discover_cons_eligible pi rest hs hr] at he
          rcases List.mem_cons.mp he with h | h
          · subst h
            refine ⟨rfl, ?_⟩
            show (0 : Int) < pi.amount - chargeRefunded pi
            omega
          · exact ih e h
      · rw [discover_cons_notsucc pi rest hs] at he
        exact ih e he
  · intro pis
    induction pis with
    | nil => intro pi hmem; simp at hmem
    | cons pi0 rest ih =>
      intro pi hmem hs hr
      rcases List.mem_cons.mp hmem with h | h
      · subst h
        rw [discover_cons_refunded pi rest hs hr]
        exact List.mem_cons_self _ _
      · have hmem2 := ih pi h hs hr
        by_cases hs0 : pi0.status = "succeeded"
        · by_cases hr0 : pi0.amount - chargeRefunded pi0 ≤ 0
          · rw [discover_cons_refunded pi0 rest hs0 hr0]
            exact List.mem_cons_of_mem _ hmem2
          · rw [discover_cons_eligible pi0 rest hs0 hr0]
            exact hmem2
        · rw [discover_cons_notsucc pi0 rest hs0]
          exact List.mem_cons_of_mem _ hmem2

/-- Witness for C7 on `discoverDemo`: the refundable payment satisfies the
invariants and the fully refunded one is skipped with the stated reason. -/
theorem eligible_invariants_witness :
    ((⟨"pi_ok", some "ch1", 34900, 0, 34900, "NB-1", "c1@example.com", "d1"⟩ : EligibleItem).refundable
        = (⟨"pi_ok", some "ch1", 34900, 0, 34900, "NB-1", "c1@example.com", "d1"⟩ : EligibleItem).amount
          - (⟨"pi_ok", some "ch1", 34900, 0, 34900, "NB-1", "c1@example.com", "d1"⟩ : EligibleItem).already_refunded
      ∧ 0 < (⟨"pi_ok", some "ch1", 34900, 0, 34900, "NB-1", "c1@example.com", "d1"⟩ : EligibleItem).refundable)
    ∧ (⟨"pi_full", "Already fully refunded"⟩ : SkippedItem)
        ∈ (discover_eligible_payments discoverDemo).2 :=
  ⟨eligible_invariants.1 discoverDemo
      ⟨"pi_ok", some "ch1", 34900, 0, 34900, "NB-1", "c1@example.com", "d1"⟩ (by decide),
   eligible_invariants.2 discoverDemo
      ⟨"pi_full", "succeeded", 34900, some ⟨"ch2", 34900⟩, some "NB-2",
        some "c2@example.com", "d2"⟩ (by decide) rfl (by decide)⟩

/-!
## Claims about bulk execution (C9) and reconciliation (C1)
-/

lemma executeLoop_calls :
    ∀ (items : List (EligibleItem × RefundOutcome)) (i : Nat),
      (executeLoop i items).calls
        = items.map (fun it => RemoteCall.createRefund it.1.pi_id it.1.refundable) := by
  intro items
  induction items with
  | nil => intro i; rfl
  | cons it rest ih =>
    intro i
    rcases it with ⟨p, out⟩
    cases out <;> simp [executeLoop, ih]

lemma executeLoop_counts :
    ∀ (items : List (EligibleItem × RefundOutcome)) (i : Nat),
      (executeLoop i items).results.succeeded.length
        + (executeLoop i items).results.failed.length = items.length := by
  intro items
  induction items with
  | nil => intro i; rfl
  | cons it rest ih =>
    intro i
    rcases it with ⟨p, out⟩
    have h2 := ih (i + 1)
    cases out <;> simp [executeLoop] <;> omega

lemma executeLoop_succ_map :
    ∀ (items : List (EligibleItem × RefundOutcome)) (i : Nat),
      (executeLoop i items).results.succeeded.map (fun r => r.pi_id)
        = (items.filter (fun it => isSuccess it.2)).map (fun it => it.1.pi_id) := by
  intro items
  induction items with
  | nil => intro i; rfl
  | cons it rest ih =>
    intro i
    rcases it with ⟨p, out⟩
    cases out <;> simp [executeLoop, isSuccess, ih]

lemma executeLoop_fail_map :
    ∀ (items : List (EligibleItem × RefundOutcome)) (i : Nat),
      (executeLoop i items).results.failed.map (fun r => r.pi_id)
        = (items.filter (fun it => ! isSuccess it.2)).map (fun it => it.1.pi_id) := by
  intro items
  induction items with
  | nil => intro i; rfl
  | cons it rest ih =>
    intro i
    rcases it with ⟨p, out⟩
    cases out <;> simp [executeLoop, isSuccess, ih]

/-- Claim C9 (amended): execution walks the plan sequentially in input
order, issuing exactly one `stripe.Refund.create` per target (the call
trace is the plan mapped in order); every target ends in exactly one of
succeeded/failed (counts add up, and each list is the in-order restriction
of the plan to its outcome); and the rate-limit pause is a fixed
`time.sleep(1)` after the `i`-th submission exactly when `i % 20 == 0`
AND that submission succeeded — a failing 20th submission skips the pause,
because the sleep sits inside the `try` block. -/
theorem execute_ordered_one_call_each :
    (∀ (items : List (EligibleItem × RefundOutcome)),
      (execute_bulk_refunds items).calls
        = items.map (fun it => RemoteCall.createRefund it.1.pi_id it.1.refundable))
    ∧ (∀ (items : List (EligibleItem × RefundOutcome)),
      (execute_bulk_refunds items).results.succeeded.length
        + (execute_bulk_refunds items).results.failed.length = items.length)
    ∧ (∀ (items : List (EligibleItem × RefundOutcome)),
      (execute_bulk_refunds items).results.succeeded.map (fun r => r.pi_id)
        = (items.filter (fun it => isSuccess it.2)).map (fun it => it.1.pi_id)
      ∧ (execute_bulk_refunds items).results.failed.map (fun r => r.pi_id)
        = (items.filter (fun it => ! isSuccess it.2)).map (fun it => it.1.pi_id))
    ∧ (∀ (i : Nat) (p : EligibleItem) (out : RefundOutcome)
        (rest : List (EligibleItem × RefundOutcome)),
      (executeLoop i ((p, out) :: rest)).pauses
        = (if isSuccess out = true ∧ i % 20 = 0 then [i] else [])
            ++ (executeLoop (i + 1) rest).pauses) := by
  refine ⟨?_, ?_, ?_, ?_⟩
  · intro items; exact executeLoop_calls items 1
  · intro items; exact executeLoop_counts items 1
  · intro items; exact ⟨executeLoop_succ_map items 1, executeLoop_fail_map items 1⟩
  · intro i p out rest
    cases out with
    | success rid rstatus =>
      by_cases h20 : i % 20 = 0
      · simp [executeLoop, isSuccess, h20]
      · simp [executeLoop, isSuccess, h20]
    | invalidRequest msg => simp [executeLoop, isSuccess]
    | stripeErr msg => simp [executeLoop, isSuccess]

/-- Witness for C9 on a singleton batch. -/
theorem execute_ordered_witness :
    (execute_bulk_refunds [(recallItem, RefundOutcome.success "re_ok" "succeeded")]).calls
      = [(recallItem, RefundOutcome.success "re_ok" "succeeded")].map
          (fun it => RemoteCall.createRefund it.1.pi_id it.1.refundable) :=
  execute_ordered_one_call_each.1 _

/-- Counterexample to claim C9 as stated: in a 20-item batch whose 20th
submission fails, 20 submissions are made (one chunk of N = 20) yet no
pause at all is inserted — the claimed "fixed pause after every batch
chunk of N submissions" does not happen, because the sleep only runs when
the chunk's final submission succeeds. -/
theorem rate_pause_counterexample :
    chunk20.length = 20
    ∧ (execute_bulk_refunds chunk20).calls.length = 20
    ∧ (execute_bulk_refunds chunk20).results.failed.length = 1
    ∧ (execute_bulk_refunds chunk20).pauses = [] := by
  refine ⟨rfl, rfl, rfl, rfl⟩

/-- Counterexample to claim C1: the source's verification line 310 sets
`match = (total_refunded == total_preview)`, not
`planned_total == actual_total + sum(failed_amounts)`.  On the claim's own
scenario — planned 1000, the 200-cent item fails, 800 succeed — the claim
predicts `matches = true` (1000 = 800 + 200), but the report says `false`
(MISMATCH, since 800 != 1000). -/
theorem reconcile_matches_counterexample :
    (dry_run [planA, planB]).1 = 1000
    ∧ (reconRun.results.succeeded.map (fun r => r.amount)).sum = 800
    ∧ reconRun.results.failed.length = 1
    ∧ planB.refundable = 200
    ∧ (1000 : Int) = 800 + 200
    ∧ (generate_compliance_report reconRun.results [planA, planB] [] 1000).2 = false := by
  refine ⟨rfl, rfl, rfl, rfl, rfl, rfl⟩

/-- Claim C1 (amended): the report's total is the sum of the succeeded
amounts, and its match boolean is true exactly when that sum equals the
planned total — failed amounts are not added back, so a run with a failed
item reports a MISMATCH. -/
theorem reconcile_matches_iff (results : ExecResults) (eligible : List EligibleItem)
    (skipped : List SkippedItem) (total_preview : Int) :
    (generate_compliance_report results eligible skipped total_preview).1
      = (results.succeeded.map (fun r => r.amount)).sum
    ∧ ((generate_compliance_report results eligible skipped total_preview).2 = true
        ↔ (results.succeeded.map (fun r => r.amount)).sum = total_preview) := by
  constructor
  · rfl
  · simp [generate_compliance_report]

/-- Witness for the amended C1 on the concrete scenario run. -/
theorem reconcile_matches_iff_witness :
    (generate_compliance_report reconRun.results [planA, planB] [] 1000).1
      = (reconRun.results.succeeded.map (fun r => r.amount)).sum :=
  (reconcile_matches_iff reconRun.results [planA, planB] [] 1000).1

/-!
## Claim about the dry run (C8)
-/

/-- Claim C8: the dry-run preview is a pure read of the plan.  Its entire
behaviour is this equation: it returns the sum of the refundable amounts
of the eligible targets, hands back the plan unchanged, and performs no
remote call; being a function, any number of calls return the same value. -/
theorem dry_run_pure (eligible : List EligibleItem) :
    dry_run eligible
      = ((eligible.map (fun p => p.refundable)).sum, eligible, ([] : List RemoteCall)) :=
  rfl

/-- Witness for C8 on a concrete two-target plan. -/
theorem dry_run_pure_witness :
    dry_run [⟨"pi_1", some "ch_1", 34900, 0, 34900, "NB-1", "c1@example.com", "d1"⟩,
             ⟨"pi_2", some "ch_2", 34900, 5000, 29900, "NB-2", "c2@example.com", "d2"⟩]
      = (64800,
         [⟨"pi_1", some "ch_1", 34900, 0, 34900, "NB-1", "c1@example.com", "d1"⟩,
          ⟨"pi_2", some "ch_2", 34900, 5000, 29900, "NB-2", "c2@example.com", "d2"⟩],
         []) := by
  rw [dry_run_pure]
  rfl

end StripePortfolio
